import Mathlib

/-!
Verification of `odo/backends/sql_csv.py`: a shallow embedding of the
CSV-to-SQL bulk-load pipeline (the `CopyFromCSV` element, its per-dialect
compilers, and the `append_csv_to_sql_table` orchestrator), together with
theorems settling the specification claims about it.
-/

set_option autoImplicit false

namespace SqlCsv

/-- Storage medium of a delimited resource.  In the Python source the medium
is carried by the resource's type: a plain `CSV` is local, `S3(CSV)` (and its
`Temp` subclass) is cloud object storage, `SSH(CSV)` is a remote-host file. -/
inductive Medium where
  | localFS
  | s3
  | ssh
deriving DecidableEq, Repr

/-- Target table descriptor: `sqlalchemy.Table` as used by the source —
its name, optional schema, the default schema name its bound engine reports
under introspection (`sa.inspect(bind).default_schema_name`), and the column
metadata last reflected from the engine. -/
structure TableDescr where
  name : String
  schema : Option String
  defaultSchemaName : String
  columns : List String
deriving DecidableEq, Repr

/-- Source resource descriptor: the `csv` argument of the source — its path,
its storage medium (see `Medium`), its own tri-state header knowledge
(`csv.has_header`), and the boolean that the external header-inference
collaborator would report for its content (see `infer_header`). -/
structure CSVDescr where
  path : String
  medium : Medium
  has_header : Option Bool
  inferredHeader : Bool
deriving DecidableEq, Repr

/-- Modelled from the spec: `infer_header` lives in `odo.backends.csv`
(the delimited-resource collaborator, outside the provided source); the spec
says unknown header state "triggers header inference" on the content and
yields a concrete boolean.  We represent its result as the resource's
`inferredHeader` oracle field. -/
def infer_header (csv : CSVDescr) : Bool :=
  csv.inferredHeader

/-- The caller-supplied keyword options, with the default values of
`CopyFromCSV.__init__`'s signature. -/
structure LoadKwargs where
  delimiter : String := ","
  header : Option Bool := none
  na_value : String := ""
  lineterminator : String := "\\n"
  quotechar : String := "\""
  escapechar : String := "\\\\"
  encoding : String := "utf8"
  skiprows : Nat := 0
  localOpt : String := ""
  compression : String := ""
  schema_name : Option String := none
deriving DecidableEq, Repr

/-- The constructed `CopyFromCSV` element.  `header` is already a concrete
boolean: `__init__` resolves it (see `resolveHeader`).  `localOpt`,
`compression` and `schema_name` model the dynamic attributes the source sets
from `**kwargs` and reads back with `getattr(element, ..., default)`. -/
structure CopyFromCSV where
  element : TableDescr
  csv : CSVDescr
  delimiter : String
  header : Bool
  na_value : String
  lineterminator : String
  quotechar : String
  escapechar : String
  encoding : String
  skiprows : Nat
  localOpt : String
  compression : String
  schema_name : Option String
deriving DecidableEq, Repr

/-- Header resolution of `CopyFromCSV.__init__` (sql_csv.py lines 30-32):
`header if header is not None else (csv.has_header if csv.has_header is not
None else infer_header(csv))`. -/
def resolveHeader (header : Option Bool) (csv : CSVDescr) : Bool :=
  match header with
  | some b => b
  | none =>
    match csv.has_header with
    | some b => b
    | none => infer_header csv

/-- The body of `CopyFromCSV.__init__`: record the table and resource, store
every option, and resolve the header flag to a concrete boolean. -/
def CopyFromCSV.init (element : TableDescr) (csv : CSVDescr)
    (kw : LoadKwargs) : CopyFromCSV :=
  { element := element
    csv := csv
    delimiter := kw.delimiter
    header := resolveHeader kw.header csv
    na_value := kw.na_value
    lineterminator := kw.lineterminator
    quotechar := kw.quotechar
    escapechar := kw.escapechar
    encoding := kw.encoding
    skiprows := kw.skiprows
    localOpt := kw.localOpt
    compression := kw.compression
    schema_name := kw.schema_name }

/-- Outcome of the relocation step at the head of `append_csv_to_sql_table`
(sql_csv.py lines 153-159): either the resource is kept unchanged, or a
conversion into a temporary copy in another medium is requested and the
pipeline continues, or (hive) a conversion into a remote-host temporary copy
is requested and the whole append is recursed on it, short-circuiting the
rest of this call. -/
inductive RelocOutcome where
  | unchanged (m : Medium)
  | convertTo (m : Medium)
  | convertSSHAndRecurse
deriving DecidableEq, Repr

/-- The relocation step of `append_csv_to_sql_table`, as the source writes
it: an if/elif chain on the engine dialect name and on whether the resource
is an `S3(CSV)` instance.  `ensureCompatibleMedium` is the spec's name for
this step; the body is a transcription of sql_csv.py lines 153-159. -/
def ensureCompatibleMedium (dialect : String) (m : Medium) : RelocOutcome :=
  if dialect = "redshift" ∧ m ≠ Medium.s3 then
    RelocOutcome.convertTo Medium.s3
  else if dialect ≠ "redshift" ∧ m = Medium.s3 then
    RelocOutcome.convertTo Medium.localFS
  else if dialect = "hive" then
    RelocOutcome.convertSSHAndRecurse
  else
    RelocOutcome.unchanged m

/-- The medium in which the resource reaches compilation in this call, if it
does: the hive branch returns before compiling. -/
def mediumAfter : RelocOutcome → Option Medium
  | RelocOutcome.unchanged m => some m
  | RelocOutcome.convertTo m => some m
  | RelocOutcome.convertSSHAndRecurse => none

/-- The storage medium each engine requires of its input, as the spec states
it: the warehouse (redshift) reads from object storage, hive from a
remote-host filesystem, every other engine from the local filesystem. -/
def requiredMedium (dialect : String) : Medium :=
  if dialect = "redshift" then Medium.s3
  else if dialect = "hive" then Medium.ssh
  else Medium.localFS

instance instDecidableEqExcept {ε α : Type} [DecidableEq ε] [DecidableEq α] :
    DecidableEq (Except ε α)
  | Except.ok a, Except.ok b =>
    if h : a = b then isTrue (by rw [h]) else isFalse (by simp [h])
  | Except.ok _, Except.error _ => isFalse (by simp)
  | Except.error _, Except.ok _ => isFalse (by simp)
  | Except.error e, Except.error f =>
    if h : e = f then isTrue (by rw [h]) else isFalse (by simp [h])

/-- Python `str.startswith`, as a check on the character data. -/
def startswith (s p : String) : Bool :=
  p.data.isPrefixOf s.data

/-- Python `str.lower`, as a character-wise lowering of the data (the
encoding names involved are ASCII). -/
def pyLower (s : String) : String :=
  ⟨s.data.map Char.toLower⟩

/-- Errors the compilers raise: `MDNotImplementedError` when the sqlite CLI
is missing (spec: ToolMissing), `ValueError` for the mysql null-value option
(spec: ConfigurationError), `AssertionError` in the redshift precondition
asserts (spec: PreconditionViolation), Python's `NameError` when the
redshift compiler reads its never-assigned `schema_name` local, the
`AssertionError` on sqlite CLI output, and the unregistered-dialect case. -/
inductive CompileErr where
  | toolMissing
  | configurationError
  | preconditionViolation
  | nameError
  | executionError (cmdline : List String)
  | unsupportedDialect
deriving DecidableEq, Repr

/-- Python `repr` of the short option strings the source passes through it
(no embedded quotes in practice): wrap in single quotes. -/
def pyRepr (s : String) : String :=
  "'" ++ s ++ "'"

/-- The `sqlite3` argument vector built by `compile_from_csv_sqlite`
(sql_csv.py lines 52-57); `database` is `element.bind.url.database`. -/
def sqliteArgv (database : String) (e : CopyFromCSV) : List String :=
  ["sqlite3",
   "-nullvalue", pyRepr e.na_value,
   "-" ++ (if e.header then "" else "no") ++ "header",
   "-separator", e.delimiter,
   "-cmd", ".import " ++ e.csv.path ++ " " ++ e.element.name,
   database]

/-- Host-visible side effects a compiler may perform.  A pure compiler
performs none. -/
inductive Effect where
  | findExecutableCheck (name : String)
  | processSpawn (argv : List String)
deriving DecidableEq, Repr

/-- The ambient execution environment the sqlite compiler touches: whether
`find_executable('sqlite3')` succeeds, the bound database file path, and the
(merged stdout+stderr) output the spawned process would produce. -/
structure HostEnv where
  sqlite3OnPath : Bool
  database : String
  processOutput : String
deriving DecidableEq, Repr

/-- `compile_from_csv_sqlite` (sql_csv.py lines 49-63).  It is not a pure
compiler: it checks for the CLI binary, spawns `sqlite3` performing
the -cmd import inside compilation, asserts the process printed nothing (surfacing
the full command line otherwise), and returns the empty statement.  The
returned effect trace records the host interactions in order. -/
def compile_from_csv_sqlite (env : HostEnv) (e : CopyFromCSV) :
    List Effect × Except CompileErr String :=
  if env.sqlite3OnPath then
    let cmd := sqliteArgv env.database e
    if env.processOutput = "" then
      ([Effect.findExecutableCheck "sqlite3", Effect.processSpawn cmd],
       Except.ok "")
    else
      ([Effect.findExecutableCheck "sqlite3", Effect.processSpawn cmd],
       Except.error (CompileErr.executionError cmd))
  else
    ([Effect.findExecutableCheck "sqlite3"], Except.error CompileErr.toolMissing)

/-- Encoding normalization of `compile_from_csv_mysql` (sql_csv.py lines
70-71): `{'utf-8': 'utf8'}.get(element.encoding.lower(), element.encoding or
'utf8')`. -/
def mysqlEncoding (encoding : String) : String :=
  if pyLower encoding = "utf-8" then "utf8"
  else if encoding = "" then "utf8"
  else encoding

/-- The text of the mysql statement before its `CHARACTER SET` clause. -/
def mysqlFront (e : CopyFromCSV) : String :=
  "LOAD DATA " ++ e.localOpt ++ " INFILE '" ++ e.csv.path ++ "'\n" ++
  "        INTO TABLE " ++ e.element.name ++ "\n" ++
  "        "

/-- The text of the mysql statement after its `CHARACTER SET` clause. -/
def mysqlBack (e : CopyFromCSV) : String :=
  "\n" ++
  "        FIELDS\n" ++
  "            TERMINATED BY '" ++ e.delimiter ++ "'\n" ++
  "            ENCLOSED BY '" ++ e.quotechar ++ "'\n" ++
  "            ESCAPED BY '" ++ e.escapechar ++ "'\n" ++
  "        LINES TERMINATED BY '" ++ e.lineterminator ++ "'\n" ++
  "        IGNORE " ++ toString e.skiprows ++ " LINES;"

/-- The `LOAD DATA ... INFILE` statement text of `compile_from_csv_mysql`
(sql_csv.py lines 72-84), after the trailing/leading whitespace `strip()`. -/
def mysqlStatement (e : CopyFromCSV) : String :=
  mysqlFront e ++ ("CHARACTER SET " ++ mysqlEncoding e.encoding) ++ mysqlBack e

/-- `compile_from_csv_mysql` (sql_csv.py lines 66-85): reject a truthy
(non-empty) `na_value` with `ValueError`, otherwise produce the single
`LOAD DATA` statement. -/
def compile_from_csv_mysql (e : CopyFromCSV) : Except CompileErr String :=
  if e.na_value ≠ "" then Except.error CompileErr.configurationError
  else Except.ok (mysqlStatement e)

/-- Encoding normalization of `compile_from_csv_postgres` (sql_csv.py lines
90-91): `{'utf8': 'utf-8'}.get(element.encoding.lower(), element.encoding or
'utf8')`. -/
def postgresEncoding (encoding : String) : String :=
  if pyLower encoding = "utf8" then "utf-8"
  else if encoding = "" then "utf8"
  else encoding

/-- The text of the postgres statement before its `ENCODING` clause. -/
def postgresFront (e : CopyFromCSV) : String :=
  "COPY " ++ e.element.name ++ " FROM '" ++ e.csv.path ++ "'\n" ++
  "        (FORMAT CSV,\n" ++
  "         DELIMITER E'" ++ e.delimiter ++ "',\n" ++
  "         NULL '" ++ e.na_value ++ "',\n" ++
  "         QUOTE '" ++ e.quotechar ++ "',\n" ++
  "         ESCAPE '" ++ e.escapechar ++ "',\n" ++
  "         HEADER " ++ (if e.header then "TRUE" else "FALSE") ++ ",\n" ++
  "         "

/-- `compile_from_csv_postgres` (sql_csv.py lines 88-103): the `COPY ... FROM`
statement text, after `strip()`; `header` is `str(element.header).upper()`. -/
def compile_from_csv_postgres (e : CopyFromCSV) : String :=
  postgresFront e ++ "ENCODING '" ++ postgresEncoding e.encoding ++ "');"

/-- Ambient AWS credentials retrieved by the redshift compiler from
`boto.Config()` (sql_csv.py lines 122-125). -/
structure Credentials where
  aws_access_key_id : String
  aws_secret_access_key : String
deriving DecidableEq, Repr

/-- The options record the redshift compiler builds (sql_csv.py lines
127-131). -/
structure RedshiftOptions where
  delimiter : String
  ignore_header : Nat
  empty_as_null : Bool
  blanks_as_null : Bool
  compression : String
deriving DecidableEq, Repr

/-- The structured `CopyCommand` the redshift compiler constructs (sql_csv.py
lines 137-143); rendering it to text is delegated to the external
`redshift_sqlalchemy` library. -/
structure CopyCommand where
  schema_name : String
  table_name : String
  data_location : String
  access_key : String
  secret_key : String
  options : RedshiftOptions
  format : String
deriving DecidableEq, Repr

/-- `compile_from_csv_redshift` (sql_csv.py lines 117-144).  The two leading
asserts require the resource to be an `S3(CSV)` with an `s3://` path.  The
schema-name block only assigns the local `schema_name` when no explicit
override attribute is present; when an override IS present the later read of
`schema_name` raises Python's `NameError` (an unbound local), which this
embedding surfaces as `CompileErr.nameError`. -/
def compile_from_csv_redshift (creds : Credentials) (e : CopyFromCSV) :
    Except CompileErr CopyCommand :=
  if e.csv.medium = Medium.s3 then
    if startswith e.csv.path "s3://" then
      let options : RedshiftOptions :=
        { delimiter := e.delimiter
          ignore_header := if e.header then 1 else 0
          empty_as_null := true
          blanks_as_null := false
          compression := e.compression }
      match e.schema_name with
      | some _ => Except.error CompileErr.nameError
      | none =>
        let schema_name :=
          match e.element.schema with
          | some s => if s = "" then e.element.defaultSchemaName else s
          | none => e.element.defaultSchemaName
        Except.ok
          { schema_name := schema_name
            table_name := e.element.name
            data_location := e.csv.path
            access_key := creds.aws_access_key_id
            secret_key := creds.aws_secret_access_key
            options := options
            format := "CSV" }
    else Except.error CompileErr.preconditionViolation
  else Except.error CompileErr.preconditionViolation

/-- A compiled command: a SQL statement string for the mysql/postgresql
dialects, the structured copy command for redshift, or the empty statement
the sqlite path returns after having already run the load itself. -/
inductive Compiled where
  | stmt (s : String)
  | copy (c : CopyCommand)
deriving DecidableEq, Repr

/-- Dispatch of `CopyFromCSV` compilation on the engine dialect name, as the
`@compiles(CopyFromCSV, ...)` registrations do, with the host effects each
compiler performs recorded alongside its result. -/
def compileDialect (dialect : String) (env : HostEnv) (creds : Credentials)
    (e : CopyFromCSV) : List Effect × Except CompileErr Compiled :=
  if dialect = "sqlite" then
    let r := compile_from_csv_sqlite env e
    (r.1, r.2.map Compiled.stmt)
  else if dialect = "mysql" then
    ([], (compile_from_csv_mysql e).map Compiled.stmt)
  else if dialect = "postgresql" then
    ([], Except.ok (Compiled.stmt (compile_from_csv_postgres e)))
  else if dialect = "redshift" then
    ([], (compile_from_csv_redshift creds e).map Compiled.copy)
  else
    ([], Except.error CompileErr.unsupportedDialect)

/-- The visible state of the target table in the engine: its column metadata
and its row count. -/
structure DBState where
  cols : List String
  rows : Nat
deriving DecidableEq, Repr

/-- The fresh reflection `append_csv_to_sql_table` returns (sql_csv.py lines
165-169): a new `sa.Table` with the same name and schema, its columns
autoloaded from the engine's current state. -/
def reflectTable (tbl : TableDescr) (s : DBState) : TableDescr :=
  { name := tbl.name
    schema := tbl.schema
    defaultSchemaName := tbl.defaultSchemaName
    columns := s.cols }

/-- The execute step of `append_csv_to_sql_table` (sql_csv.py lines 163-169):
`with tbl.bind.begin() as conn: conn.execute(stmt)` followed by the fresh
reflection.  The sqlalchemy `begin()` context manager commits the
transaction on normal exit and rolls it back when the body raises; `run`
is the engine's execution of the compiled command on the current state.  On
success the new state becomes visible and the reflected table is returned;
on failure the visible state is the unchanged input state and the error
propagates as-is (the executor runs `run` exactly once — no retry). -/
def executeLoad (run : DBState → Except String DBState) (tbl : TableDescr)
    (s : DBState) : DBState × Except String TableDescr :=
  match run s with
  | Except.ok s' => (s', Except.ok (reflectTable tbl s'))
  | Except.error err => (s, Except.error err)

/-!  ## Theorems settling the claims  -/

/-- C1: for every append call, the resource that reaches the dialect
compiler is in the medium the engine requires: a non-cloud resource headed
for redshift is first converted to a cloud-resident temporary copy, a
cloud-resident resource headed for any other engine is first converted to a
local temporary copy, and whenever compilation is reached the resource's
medium is cloud-resident exactly for the redshift engine — compilation never
receives a cross-medium resource. -/
theorem relocation_medium_compatible (dialect : String) (m : Medium) :
    (dialect = "redshift" → m ≠ Medium.s3 →
      ensureCompatibleMedium dialect m = RelocOutcome.convertTo Medium.s3) ∧
    (dialect ≠ "redshift" → m = Medium.s3 →
      ensureCompatibleMedium dialect m = RelocOutcome.convertTo Medium.localFS) ∧
    (∀ m', mediumAfter (ensureCompatibleMedium dialect m) = some m' →
      (dialect = "redshift" ↔ m' = Medium.s3)) := by
  refine ⟨?_, ?_, ?_⟩
  · intro hd hm
    simp [ensureCompatibleMedium, hd, hm]
  · intro hd hm
    simp [ensureCompatibleMedium, hd, hm]
  · intro m' hm'
    unfold ensureCompatibleMedium at hm'
    split at hm'
    · next hcond =>
      simp only [mediumAfter, Option.some.injEq] at hm'
      subst hm'
      simp [hcond.1]
    · next hcond =>
      split at hm'
      · next hcond2 =>
        simp only [mediumAfter, Option.some.injEq] at hm'
        subst hm'
        simp [hcond2.1]
      · next hcond2 =>
        split at hm'
        · next => simp [mediumAfter] at hm'
        · next =>
          simp only [mediumAfter, Option.some.injEq] at hm'
          subst hm'
          constructor
          · intro hd
            by_contra hs
            exact hcond ⟨hd, hs⟩
          · intro hs
            by_contra hd
            exact hcond2 ⟨hd, hs⟩

/-- Witness for `relocation_medium_compatible`: a local resource headed for
redshift is converted to a cloud-resident temporary copy. -/
theorem relocation_medium_compatible_witness :
    ensureCompatibleMedium "redshift" Medium.localFS =
      RelocOutcome.convertTo Medium.s3 :=
  (relocation_medium_compatible "redshift" Medium.localFS).1 rfl (by decide)

/-- C2: the header flag of a constructed `CopyFromCSV` is a concrete boolean
resolved by priority: the caller's non-`None` override, else the resource's
own known header state when not `None`, else the value inferred from the
content. -/
theorem header_resolution (t : TableDescr) (c : CSVDescr) (kw : LoadKwargs) :
    (∀ b, kw.header = some b → (CopyFromCSV.init t c kw).header = b) ∧
    (kw.header = none → ∀ b, c.has_header = some b →
      (CopyFromCSV.init t c kw).header = b) ∧
    (kw.header = none → c.has_header = none →
      (CopyFromCSV.init t c kw).header = infer_header c) := by
  refine ⟨?_, ?_, ?_⟩ <;> intros <;>
    simp_all [CopyFromCSV.init, resolveHeader]

/-- Witness for `header_resolution`: an explicit `header=False` override wins
over a resource that knows it has a header. -/
theorem header_resolution_witness :
    (CopyFromCSV.init ⟨"t", none, "public", []⟩
      ⟨"data.csv", Medium.localFS, some true, true⟩
      { header := some false }).header = false :=
  (header_resolution ⟨"t", none, "public", []⟩
      ⟨"data.csv", Medium.localFS, some true, true⟩
      { header := some false }).1 false rfl

/-- C4: the mysql compiler rejects every non-empty null-value option with a
configuration error (`ValueError` in the source) and never produces a
command there; with the empty null-value option it succeeds and produces the
single `LOAD DATA` statement. -/
theorem mysql_navalue_rejection (e : CopyFromCSV) :
    (e.na_value ≠ "" →
      compile_from_csv_mysql e = Except.error CompileErr.configurationError) ∧
    (e.na_value = "" →
      compile_from_csv_mysql e = Except.ok (mysqlStatement e)) := by
  constructor <;> intro h <;> simp [compile_from_csv_mysql, h]

/-- Witness for `mysql_navalue_rejection`: a `na_value` of `"NULL"` is
rejected with the configuration error. -/
theorem mysql_navalue_rejection_witness :
    compile_from_csv_mysql
      (CopyFromCSV.init ⟨"t", none, "public", []⟩
        ⟨"data.csv", Medium.localFS, some true, true⟩
        { na_value := "NULL" }) =
      Except.error CompileErr.configurationError :=
  (mysql_navalue_rejection _).1 (by decide)

/-- Counterexample to C6: for the hive engine and a cloud-resident resource,
the `elif` chain takes the S3-to-local branch first, so the resource is
converted to a local temporary copy and the normal pipeline continues — the
remote-host conversion and the recursion are not performed, contradicting
"for every source resource regardless of its current medium". -/
theorem hive_s3_not_recursed :
    ensureCompatibleMedium "hive" Medium.s3 =
      RelocOutcome.convertTo Medium.localFS ∧
    ensureCompatibleMedium "hive" Medium.s3 ≠
      RelocOutcome.convertSSHAndRecurse := by
  decide

/-- C6 as amended: for the hive engine the short-circuit applies only to a
resource that is not cloud-resident: such a resource is converted into a
remote-host-resident temporary copy and the whole append is recursed on that
copy, skipping the rest of the pipeline; a cloud-resident resource is
instead converted to a local copy and the pipeline continues. -/
theorem hive_recursion_noncloud (m : Medium) (h : m ≠ Medium.s3) :
    ensureCompatibleMedium "hive" m = RelocOutcome.convertSSHAndRecurse := by
  cases m
  · decide
  · exact absurd rfl h
  · decide

/-- Witness for `hive_recursion_noncloud`: a local resource headed for hive
takes the convert-to-remote-and-recurse path. -/
theorem hive_recursion_noncloud_witness :
    ensureCompatibleMedium "hive" Medium.localFS =
      RelocOutcome.convertSSHAndRecurse :=
  hive_recursion_noncloud Medium.localFS (by decide)

/-- C3: the redshift compiler raises the precondition violation (the
source's leading asserts) on every resource that is not cloud-resident —
not an `S3(CSV)` or without an `s3://` path — and never returns a command
there; for a cloud-resident resource that error branch is unreachable. -/
theorem redshift_precondition (creds : Credentials) (e : CopyFromCSV) :
    (¬(e.csv.medium = Medium.s3 ∧ startswith e.csv.path "s3://" = true) →
      compile_from_csv_redshift creds e =
        Except.error CompileErr.preconditionViolation) ∧
    (e.csv.medium = Medium.s3 → startswith e.csv.path "s3://" = true →
      compile_from_csv_redshift creds e ≠
        Except.error CompileErr.preconditionViolation) := by
  constructor
  · intro h
    by_cases h1 : e.csv.medium = Medium.s3
    · by_cases h2 : startswith e.csv.path "s3://" = true
      · exact absurd ⟨h1, h2⟩ h
      · simp [compile_from_csv_redshift, h1, h2]
    · simp [compile_from_csv_redshift, h1]
  · intro h1 h2
    unfold compile_from_csv_redshift
    rw [if_pos h1, if_pos h2]
    cases e.schema_name <;> simp

/-- Witness for `redshift_precondition`: for a cloud-resident resource with
an `s3://` path the compiler does not raise the precondition violation. -/
theorem redshift_precondition_witness :
    compile_from_csv_redshift ⟨"AK", "SK"⟩
      (CopyFromCSV.init ⟨"t", none, "public", []⟩
        ⟨"s3://bucket/data.csv", Medium.s3, some true, true⟩ {}) ≠
      Except.error CompileErr.preconditionViolation :=
  (redshift_precondition ⟨"AK", "SK"⟩
      (CopyFromCSV.init ⟨"t", none, "public", []⟩
        ⟨"s3://bucket/data.csv", Medium.s3, some true, true⟩ {})).2
    (by decide) (by decide)

/-- C5 failing input: a redshift compile with an explicit `schema_name`
override.  The override skips the only assignment of the local
`schema_name`, so the later `CopyCommand(schema_name=schema_name, ...)` read
raises Python's `NameError` — the override is never used.  Without an
override the table-schema/default-schema fallback works as claimed. -/
theorem redshift_schema_override_name_error :
    compile_from_csv_redshift ⟨"AK", "SK"⟩
      (CopyFromCSV.init ⟨"t", none, "public", []⟩
        ⟨"s3://bucket/data.csv", Medium.s3, some true, true⟩
        { schema_name := some "staging" }) =
      Except.error CompileErr.nameError ∧
    (compile_from_csv_redshift ⟨"AK", "SK"⟩
      (CopyFromCSV.init ⟨"t", some "sales", "public", []⟩
        ⟨"s3://bucket/data.csv", Medium.s3, some true, true⟩ {})).map
      CopyCommand.schema_name = Except.ok "sales" ∧
    (compile_from_csv_redshift ⟨"AK", "SK"⟩
      (CopyFromCSV.init ⟨"t", none, "public", []⟩
        ⟨"s3://bucket/data.csv", Medium.s3, some true, true⟩ {})).map
      CopyCommand.schema_name = Except.ok "public" := by
  decide

/-- C7: the execute step runs the compiled command inside one transaction
scoped to the whole step: on normal completion the new state is committed
and a freshly reflected descriptor of the same table (same name and schema,
columns re-read from the engine) is returned; on any failure the
transaction is rolled back — the visible state is the unchanged input
state — and the error propagates unchanged, with no retry. -/
theorem execute_transactional (run : DBState → Except String DBState)
    (tbl : TableDescr) (s : DBState) :
    (∀ s', run s = Except.ok s' →
      executeLoad run tbl s = (s', Except.ok (reflectTable tbl s')) ∧
      (reflectTable tbl s').name = tbl.name ∧
      (reflectTable tbl s').schema = tbl.schema ∧
      (reflectTable tbl s').columns = s'.cols) ∧
    (∀ err, run s = Except.error err →
      executeLoad run tbl s = (s, Except.error err)) := by
  constructor <;> intro x hx <;> simp [executeLoad, hx, reflectTable]

/-- Witness for `execute_transactional`: a failing execution leaves the
visible state unchanged and surfaces the engine error as-is. -/
theorem execute_transactional_witness :
    executeLoad (fun _ => Except.error "disk full")
      ⟨"t", none, "public", ["a"]⟩ ⟨["a"], 3⟩ =
      (⟨["a"], 3⟩, Except.error "disk full") :=
  (execute_transactional (fun _ => Except.error "disk full")
      ⟨"t", none, "public", ["a"]⟩ ⟨["a"], 3⟩).2 "disk full" rfl

/-- Counterexample to C8: for the hive engine, the required medium is the
remote-host filesystem, yet a resource already remote-host-resident is not
returned unchanged — the hive branch has no medium check and requests the
remote-host conversion again. -/
theorem hive_required_medium_reconverted :
    requiredMedium "hive" = Medium.ssh ∧
    ensureCompatibleMedium "hive" Medium.ssh =
      RelocOutcome.convertSSHAndRecurse ∧
    ensureCompatibleMedium "hive" Medium.ssh ≠
      RelocOutcome.unchanged Medium.ssh := by
  decide

/-- C8 as amended: for every engine other than hive, a resource already in
the engine's required medium is returned unchanged with no conversion
requested, and the relocation step is idempotent — reapplying it to the
medium it produced leaves that medium unchanged; for hive the step always
requests a fresh remote-host conversion. -/
theorem relocation_idempotent_nonhive (d : String) (h : d ≠ "hive") :
    ensureCompatibleMedium d (requiredMedium d) =
      RelocOutcome.unchanged (requiredMedium d) ∧
    (∀ m m', ensureCompatibleMedium d m = RelocOutcome.convertTo m' ∨
        ensureCompatibleMedium d m = RelocOutcome.unchanged m' →
      ensureCompatibleMedium d m' = RelocOutcome.unchanged m') := by
  constructor
  · by_cases hd : d = "redshift" <;>
      simp [ensureCompatibleMedium, requiredMedium, hd, h]
  · intro m m' hm
    by_cases hd : d = "redshift"
    · subst hd
      cases m <;> rcases hm with hm | hm <;>
        simp_all [ensureCompatibleMedium]
    · cases m <;> rcases hm with hm | hm <;>
        simp_all [ensureCompatibleMedium] <;>
        (subst hm; simp)

/-- Witness for `relocation_idempotent_nonhive`: a local resource headed for
mysql is already in the required medium and is left unchanged. -/
theorem relocation_idempotent_nonhive_witness :
    ensureCompatibleMedium "mysql" (requiredMedium "mysql") =
      RelocOutcome.unchanged (requiredMedium "mysql") :=
  (relocation_idempotent_nonhive "mysql" (by decide)).1

/-- A concrete local-CSV `CopyFromCSV` element with default options, used to
exercise the sqlite compiler. -/
def sqliteExampleElem : CopyFromCSV :=
  CopyFromCSV.init ⟨"t", none, "public", []⟩
    ⟨"data.csv", Medium.localFS, some true, true⟩ {}

/-- Counterexample to C9: the sqlite dialect compiler is not a pure
function — at a concrete input it checks the host for the `sqlite3` binary
and spawns the CLI process, performing the load itself during compilation,
and hands back only the empty statement. -/
theorem sqlite_compiler_runs_load :
    (compileDialect "sqlite" ⟨true, "db.sqlite", ""⟩ ⟨"AK", "SK"⟩
        sqliteExampleElem).1 ≠ [] ∧
    Effect.processSpawn (sqliteArgv "db.sqlite" sqliteExampleElem) ∈
      (compileDialect "sqlite" ⟨true, "db.sqlite", ""⟩ ⟨"AK", "SK"⟩
        sqliteExampleElem).1 ∧
    (compileDialect "sqlite" ⟨true, "db.sqlite", ""⟩ ⟨"AK", "SK"⟩
        sqliteExampleElem).2 = Except.ok (Compiled.stmt "") := by
  decide

/-- C9 as amended: the mysql, postgresql and redshift compilers are pure
functions of the table descriptor, the resource descriptor, the options and
the ambient credential record — they perform no host side effects and their
result does not depend on the host environment; the sqlite compiler alone
locates and spawns the engine CLI during compilation and executes the load
itself. -/
theorem nonsqlite_compilers_pure (d : String) (env env' : HostEnv)
    (creds : Credentials) (e : CopyFromCSV)
    (h : d = "mysql" ∨ d = "postgresql" ∨ d = "redshift") :
    (compileDialect d env creds e).1 = [] ∧
    compileDialect d env creds e = compileDialect d env' creds e := by
  rcases h with h | h | h <;> subst h <;> simp [compileDialect]

/-- Witness for `nonsqlite_compilers_pure`: the mysql compiler performs no
host effects on a concrete input. -/
theorem nonsqlite_compilers_pure_witness :
    (compileDialect "mysql" ⟨true, "db.sqlite", "garbage"⟩ ⟨"AK", "SK"⟩
        sqliteExampleElem).1 = [] :=
  (nonsqlite_compilers_pure "mysql" ⟨true, "db.sqlite", "garbage"⟩
      ⟨false, "", ""⟩ ⟨"AK", "SK"⟩ sqliteExampleElem (Or.inl rfl)).1

/-- C10: the two client/server dialects normalize the encoding name in
opposite directions: postgres emits `utf8` (any letter case) as the
hyphenated `utf-8` in the `ENCODING` clause and every other non-empty name
as given, while mysql emits `utf-8` (any letter case) as the unhyphenated
`utf8` in the `CHARACTER SET` clause. -/
theorem encoding_normalization_opposite (e : CopyFromCSV) :
    (pyLower e.encoding = "utf8" →
      ∃ pre, compile_from_csv_postgres e =
        pre ++ "ENCODING '" ++ "utf-8" ++ "');") ∧
    (e.encoding ≠ "" → pyLower e.encoding ≠ "utf8" →
      ∃ pre, compile_from_csv_postgres e =
        pre ++ "ENCODING '" ++ e.encoding ++ "');") ∧
    (pyLower e.encoding = "utf-8" → e.na_value = "" →
      ∃ pre suf, compile_from_csv_mysql e =
        Except.ok (pre ++ ("CHARACTER SET " ++ "utf8") ++ suf)) := by
  refine ⟨?_, ?_, ?_⟩
  · intro h
    have henc : postgresEncoding e.encoding = "utf-8" := by
      simp [postgresEncoding, h]
    exact ⟨postgresFront e, by simp [compile_from_csv_postgres, henc]⟩
  · intro h1 h2
    have henc : postgresEncoding e.encoding = e.encoding := by
      simp [postgresEncoding, h1, h2]
    exact ⟨postgresFront e, by simp [compile_from_csv_postgres, henc]⟩
  · intro h hna
    have henc : mysqlEncoding e.encoding = "utf8" := by
      simp [mysqlEncoding, h]
    exact ⟨mysqlFront e, mysqlBack e,
      by simp [compile_from_csv_mysql, hna, mysqlStatement, henc]⟩

/-- Witness for `encoding_normalization_opposite`: an upper-case `UTF8`
resource encoding is emitted as `utf-8` by the postgres compiler, and an
upper-case `UTF-8` one as `utf8` by the mysql compiler. -/
theorem encoding_normalization_opposite_witness :
    (∃ pre, compile_from_csv_postgres
        (CopyFromCSV.init ⟨"t", none, "public", []⟩
          ⟨"data.csv", Medium.localFS, some true, true⟩
          { encoding := "UTF8" }) =
      pre ++ "ENCODING '" ++ "utf-8" ++ "');") ∧
    (∃ pre suf, compile_from_csv_mysql
        (CopyFromCSV.init ⟨"t", none, "public", []⟩
          ⟨"data.csv", Medium.localFS, some true, true⟩
          { encoding := "UTF-8" }) =
      Except.ok (pre ++ ("CHARACTER SET " ++ "utf8") ++ suf)) :=
  ⟨(encoding_normalization_opposite
      (CopyFromCSV.init ⟨"t", none, "public", []⟩
        ⟨"data.csv", Medium.localFS, some true, true⟩
        { encoding := "UTF8" })).1 (by decide),
   (encoding_normalization_opposite
      (CopyFromCSV.init ⟨"t", none, "public", []⟩
        ⟨"data.csv", Medium.localFS, some true, true⟩
        { encoding := "UTF-8" })).2.2 (by decide) (by decide)⟩

end SqlCsv
